import Mathlib

/-
Shallow embedding of the proxmox-mcp repository (src/proxmox_mcp) used to
check the claims of the specification against the code.

The embedding covers:
  * proxmox_client.py  — ProxmoxClient._authenticate, ._get_headers,
    ._request, .get_all_vms, .get_all_containers (namespace Client);
  * tools/vms.py       — the tool bodies list_vms, get_vm_info,
    get_vm_status, get_vm_metrics, list_vm_snapshots, get_cluster_status,
    get_vm_filesystem_info (namespace Tools);
  * config.py          — the Settings fields the client reads.

Conventions of the embedding:
  * Python JSON scalars are the type PValue; Python dicts with unknown key
    sets (upstream payloads) are association lists, type Record; dict
    literals with a fixed key set built by the code are Lean structures
    whose field names are the dict keys.
  * Python numbers (int and float) are modelled by the rationals.  The
    only divergence is round(x, 2), which in Python rounds halves to even:
    the model rounds halves up.  No claim evaluates round at a half
    boundary, so the two agree on everything proved here.
  * Upstream HTTP responses are oracle inputs: each modelled function
    takes the outcome of every upstream call it performs as an explicit
    argument, of type Except PyError.  An Except.error result of a whole
    tool models a Python exception escaping the tool function; a
    structured error dictionary returned by the tool is an ordinary
    Except.ok value.
-/

namespace ProxmoxMCP

/-- A Python exception, as the modelled code can observe it.  ProxmoxAuthError
is a subclass of ProxmoxClientError in the source, so a single constructor
covers both for the purposes of the except clauses that appear in the code. -/
inductive PyError where
  | clientError (msg : String)
  | httpStatusError (status : Nat) (text : String)
  | rawError (msg : String)
deriving DecidableEq

/-- The string str(e) that the code interpolates into error messages. -/
def PyError.str : PyError → String
  | .clientError m => m
  | .httpStatusError _ t => t
  | .rawError m => m

/-- Does the except ProxmoxClientError clause of get_all_vms and
get_all_containers catch this exception? -/
def PyError.isClientError : PyError → Bool
  | .clientError _ => true
  | _ => false

/-- A Python JSON scalar value. -/
inductive PValue where
  | str (s : String)
  | num (q : ℚ)
  | bool (b : Bool)
  | null
deriving DecidableEq

/-- Python truthiness of a scalar. -/
def PValue.truthy : PValue → Bool
  | .str s => !s.isEmpty
  | .num q => if q = 0 then false else true
  | .bool b => b
  | .null => false

/-- Numeric reading of a scalar, as Python arithmetic treats it.  A str or
None operand would raise TypeError in Python; the model is only applied at
numeric payload fields and maps those cases to 0. -/
def PValue.asNum : PValue → ℚ
  | .num q => q
  | .bool b => if b then 1 else 0
  | _ => 0

/-- The string Python str would produce, for the values interpolated into
f-strings by the code.  For non-integral numbers Python prints a float; the
claims never interpolate one, so the fraction form chosen here is never
compared against anything. -/
def PValue.repr : PValue → String
  | .str s => s
  | .num q => if q.den = 1 then toString q.num else toString q
  | .bool b => if b then "True" else "False"
  | .null => "None"

/-- Python x or y on scalars. -/
def pyOr (a b : PValue) : PValue := if a.truthy then a else b

/-- Python max(a, b) on numbers. -/
def pyMax (a b : ℚ) : ℚ := if a < b then b else a

/-- Python round(q, 2).  Python rounds halves to even; this model rounds
halves up, which agrees with Python away from exact half boundaries. -/
def round2 (q : ℚ) : ℚ := ((Int.floor (q * 100 + 1 / 2) : ℚ)) / 100

/-- Python needle in hay on strings. -/
def pyIn (needle hay : String) : Bool := decide (needle.data <:+: hay.data)

/-- Python s.lower(), on the character list of the string. -/
def strLower (s : String) : String := ⟨s.data.map Char.toLower⟩

/-- Python s.startswith(pre). -/
def strStartsWith (s pre : String) : Bool := decide (pre.data <+: s.data)

/-- A Python dict with an unknown key set, as an association list in
insertion order. -/
abbrev Record := List (String × PValue)

/-- Python r.get(k): the first binding of k, if any. -/
def Record.get? (r : Record) (k : String) : Option PValue :=
  match r.find? (fun kv => decide (kv.1 = k)) with
  | some kv => some kv.2
  | none => none

/-- Python r.get(k, d). -/
def Record.getD (r : Record) (k : String) (d : PValue) : PValue :=
  match r.get? k with
  | some v => v
  | none => d

/-- Python r[k] = v: overwrite the binding of k, or append one. -/
def Record.set (r : Record) (k : String) (v : PValue) : Record :=
  if r.any (fun kv => decide (kv.1 = k)) then
    r.map (fun kv => if kv.1 = k then (k, v) else kv)
  else
    r ++ [(k, v)]

instance {ε α : Type} [DecidableEq ε] [DecidableEq α] : DecidableEq (Except ε α) := fun x y =>
  match x, y with
  | .ok a, .ok b =>
      if h : a = b then isTrue (by rw [h]) else isFalse (fun hh => h (Except.ok.inj hh))
  | .error a, .error b =>
      if h : a = b then isTrue (by rw [h]) else isFalse (fun hh => h (Except.error.inj hh))
  | .ok _, .error _ => isFalse (fun hh => Except.noConfusion hh)
  | .error _, .ok _ => isFalse (fun hh => Except.noConfusion hh)

namespace Client

/-- The fields of config.py Settings that the client reads.  A missing
environment value is None; use_api_token below reproduces the truthiness
test bool(token_id and token_secret) of the source property. -/
structure Settings where
  proxmox_host : String := "localhost"
  proxmox_port : Nat := 8006
  proxmox_verify_ssl : Bool := false
  proxmox_api_token_id : Option String := none
  proxmox_api_token_secret : Option String := none
  proxmox_username : Option String := none
  proxmox_password : Option String := none
  proxmox_realm : String := "pam"
deriving DecidableEq

/-- Python truthiness of an optional string (None and "" are falsy). -/
def optTruthy : Option String → Bool
  | none => false
  | some s => !s.isEmpty

/-- Python str of an optional string, as interpolated into f-strings. -/
def optStr : Option String → String
  | none => "None"
  | some s => s

/-- Settings.use_api_token: bool(token_id and token_secret). -/
def Settings.use_api_token (st : Settings) : Bool :=
  optTruthy st.proxmox_api_token_id && optTruthy st.proxmox_api_token_secret

/-- ProxmoxClient._authenticate.  The session state is the pair
(auth_ticket, csrf_token); login is the outcome of the POST to
/access/ticket, either the (ticket, CSRFPreventionToken) pair extracted
from the response data or the response text of a failed exchange. -/
def authenticate (st : Settings) (ticket0 csrf0 : Option String)
    (login : Except String (String × String)) :
    Except PyError (Option String × Option String) :=
  if st.use_api_token then
    .ok (ticket0, csrf0)
  else if !(optTruthy st.proxmox_username) || !(optTruthy st.proxmox_password) then
    .error (.clientError
      ("No authentication configured. Set PROXMOX_API_TOKEN_ID and PROXMOX_API_TOKEN_SECRET, or PROXMOX_USERNAME and PROXMOX_PASSWORD."))
  else
    match login with
    | .ok tc => .ok (some tc.1, some tc.2)
    | .error body => .error (.clientError ("Authentication failed: " ++ body))

/-- ProxmoxClient._get_headers, over the settings and the session state. -/
def get_headers (st : Settings) (ticket csrf : Option String) :
    List (String × String) :=
  if st.use_api_token then
    [("Authorization",
      "PVEAPIToken=" ++ optStr st.proxmox_api_token_id ++ "="
        ++ optStr st.proxmox_api_token_secret)]
  else if optTruthy ticket then
    ("Cookie", "PVEAuthCookie=" ++ optStr ticket) ::
      (if optTruthy csrf then [("CSRFPreventionToken", optStr csrf)] else [])
  else
    []

/-- One HTTP response as httpx exposes it: status code, response text and
the value of response.json().get("data"). -/
structure HttpResponse where
  status : Nat
  text : String
  data : Option PValue
deriving DecidableEq

/-- raise_for_status raises httpx.HTTPStatusError for every non-2xx code. -/
def HttpResponse.isSuccess (r : HttpResponse) : Bool :=
  decide (200 ≤ r.status) && decide (r.status < 300)

/-- The outcome of one client.request call: a response, or a transport
exception whose str is msg. -/
inductive ReqOutcome where
  | resp (r : HttpResponse)
  | exn (msg : String)
deriving DecidableEq

/-- What one ProxmoxClient._request call did: how many client.request
calls it made, how many times it called _authenticate, and what it
returned or raised. -/
structure RequestTrace where
  requests : Nat
  reauths : Nat
  outcome : Except PyError (Option PValue)
deriving DecidableEq

/-- ProxmoxClient._request, after the client is connected.  first and
second are the outcomes of the first request and (if reached) the retried
request; auth is the outcome of the _authenticate call (if reached).

Python semantics embedded here: an exception raised inside an except
handler is not caught by the sibling handlers of the same try statement,
so the retried request's raise_for_status propagates httpx.HTTPStatusError
(and a retried transport failure propagates raw), unwrapped. -/
def requestModel (first second : ReqOutcome) (auth : Except PyError Unit) :
    RequestTrace :=
  match first with
  | .exn m => ⟨1, 0, .error (.clientError ("API request failed: " ++ m))⟩
  | .resp r =>
    if r.isSuccess then ⟨1, 0, .ok r.data⟩
    else if r.status = 401 then
      match auth with
      | .error e => ⟨1, 1, .error e⟩
      | .ok _ =>
        match second with
        | .exn m => ⟨2, 1, .error (.rawError m)⟩
        | .resp r2 =>
          if r2.isSuccess then ⟨2, 1, .ok r2.data⟩
          else ⟨2, 1, .error (.httpStatusError r2.status r2.text)⟩
    else ⟨1, 0, .error (.clientError ("API request failed: " ++ r.text))⟩

/-- ProxmoxClient.get_all_vms.  nodesResp is the result of get_nodes();
fetch node is the result of get("/nodes/node/qemu").  The loop body
catches only ProxmoxClientError; any other exception from a per-node
fetch propagates and aborts the aggregation. -/
def get_all_vms (nodesResp : Except PyError (Option (List Record)))
    (fetch : String → Except PyError (Option (List Record))) :
    Except PyError (List Record) :=
  match nodesResp with
  | .error e => .error e
  | .ok none => .error (.rawError ("TypeError: NoneType object is not iterable"))
  | .ok (some nodes) =>
    nodes.foldlM (fun acc node_info =>
      match Record.get? node_info ("node") with
      | none => .error (.rawError ("KeyError: node"))
      | some v =>
        match fetch v.repr with
        | .ok vms =>
            .ok (acc ++ (vms.getD []).map (fun vm => Record.set vm ("node") v))
        | .error (.clientError _) => .ok acc
        | .error e => .error e) []

/-- ProxmoxClient.get_all_containers; identical to get_all_vms over the
lxc endpoint, additionally tagging each container with type "lxc". -/
def get_all_containers (nodesResp : Except PyError (Option (List Record)))
    (fetch : String → Except PyError (Option (List Record))) :
    Except PyError (List Record) :=
  match nodesResp with
  | .error e => .error e
  | .ok none => .error (.rawError ("TypeError: NoneType object is not iterable"))
  | .ok (some nodes) =>
    nodes.foldlM (fun acc node_info =>
      match Record.get? node_info ("node") with
      | none => .error (.rawError ("KeyError: node"))
      | some v =>
        match fetch v.repr with
        | .ok cts =>
            .ok (acc ++ (cts.getD []).map (fun ct =>
              Record.set (Record.set ct ("node") v) ("type") (.str ("lxc"))))
        | .error (.clientError _) => .ok acc
        | .error e => .error e) []

/-- The attribute names defined on ProxmoxClient (instance attributes set
in __init__ plus the methods of the class body).  Looking up any other
name on the instance raises AttributeError. -/
def proxmoxClientAttrs : List String :=
  [("_client"), ("_auth_ticket"), ("_csrf_token"), ("__init__"),
   ("_get_client"), ("_authenticate"), ("_get_headers"), ("_request"),
   ("get"), ("get_cluster_status"), ("get_nodes"), ("get_node_status"),
   ("get_all_vms"), ("get_vm_status"), ("get_vm_config"),
   ("get_vm_rrddata"), ("get_vm_snapshots"), ("get_all_containers"),
   ("get_container_status"), ("get_container_config"), ("get_storage"),
   ("get_node_storage"), ("get_node_networks"), ("close")]

/-- The outcome of evaluating proxmox.get_vm_agent_fsinfo(node, vmid) in
get_vm_filesystem_info: ProxmoxClient defines no such attribute, so the
lookup raises AttributeError inside the surrounding try block. -/
def get_vm_agent_fsinfo_result : Except PyError (Option (List Record)) :=
  if proxmoxClientAttrs.contains ("get_vm_agent_fsinfo") then
    .ok none
  else
    .error (.rawError
      ("\x27ProxmoxClient\x27 object has no attribute \x27get_vm_agent_fsinfo\x27"))

end Client

namespace Tools

/-- The node auto-detection loop shared by the tools: iterate over the
guest records in listing order, stop at the first one whose "vmid" equals
the requested id, and take its "node" value; a missing or None node on
that first match leaves the node unresolved (the loop breaks either way). -/
def scanNode (guests : List Record) (vmid : Int) : Option PValue :=
  match guests.find? (fun g =>
      decide (Record.getD g ("vmid") .null = PValue.num ((vmid : ℚ)))) with
  | none => none
  | some g =>
    match Record.getD g ("node") .null with
    | .null => none
    | v => some v

/-- Node resolution of get_vm_info and get_vm_status: when node is not
given, fetch all VMs and all containers (either call may raise) and scan
their concatenation. -/
def resolveNodeBoth (vmid : Int) (node : Option String)
    (allVms allCts : Except PyError (List Record)) :
    Except PyError (Option String) :=
  match node with
  | some n => .ok (some n)
  | none =>
    match allVms with
    | .error e => .error e
    | .ok vms =>
      match allCts with
      | .error e => .error e
      | .ok cts => .ok ((scanNode (vms ++ cts) vmid).map PValue.repr)

/-- Node resolution of get_vm_metrics, list_vm_snapshots and
get_vm_filesystem_info: when node is not given, fetch all VMs only and
scan that list. -/
def resolveNodeVms (vmid : Int) (node : Option String)
    (allVms : Except PyError (List Record)) :
    Except PyError (Option String) :=
  match node with
  | some n => .ok (some n)
  | none =>
    match allVms with
    | .error e => .error e
    | .ok vms => .ok ((scanNode vms vmid).map PValue.repr)

/-- One entry of the "networks" list of get_vm_info:
a dict with keys "interface" and "config". -/
structure NetEntry where
  interface : String
  config : PValue
deriving DecidableEq

/-- One entry of the "disks" list of get_vm_info:
a dict with keys "device" and "config". -/
structure DiskEntry where
  device : String
  config : PValue
deriving DecidableEq

/-- The network-interface parsing loop of get_vm_info: every config key
beginning with "net" whose value is truthy. -/
def parseNetworks (config : Record) : List NetEntry :=
  config.foldl (fun acc kv =>
    if strStartsWith kv.1 ("net") && kv.2.truthy then
      acc ++ [⟨kv.1, kv.2⟩]
    else acc) []

/-- The disk prefix tuple of get_vm_info. -/
def diskPrefixes : List String :=
  [("scsi"), ("virtio"), ("ide"), ("sata"), ("rootfs"), ("mp")]

/-- The disk parsing loop of get_vm_info: every config key beginning with
one of the disk prefixes whose value is truthy, provided the value is a
string containing ":" or containing "volume" after lowercasing. -/
def parseDisks (config : Record) : List DiskEntry :=
  config.foldl (fun acc kv =>
    if diskPrefixes.any (fun p => strStartsWith kv.1 p) && kv.2.truthy then
      match kv.2 with
      | .str s =>
        if pyIn (":") s || pyIn ("volume") (strLower s) then
          acc ++ [⟨kv.1, kv.2⟩]
        else acc
      | _ => acc
    else acc) []

/-- The type-resolution block of get_vm_info: try the QEMU config and
status fetches; on any failure of that pair try the LXC pair; if the LXC
pair also fails, return the error dict built from the LXC failure (the
config fetch error if it failed, else the status fetch error). -/
def tryQemuThenLxc (vmConfig vmStatus ctConfig ctStatus : Except PyError Record) :
    Except String (Record × Record × String) :=
  match vmConfig, vmStatus with
  | .ok c, .ok s => .ok (c, s, ("qemu"))
  | _, _ =>
    match ctConfig, ctStatus with
    | .ok c, .ok s => .ok (c, s, ("lxc"))
    | .error e, _ => .error ("Failed to get VM/container info: " ++ e.str)
    | .ok _, .error e => .error ("Failed to get VM/container info: " ++ e.str)

/-- The "hardware" sub-dict of the get_vm_info return value. -/
structure Hardware where
  cpus : PValue
  sockets : PValue
  memory_mb : PValue
  balloon : PValue
deriving DecidableEq

/-- The get_vm_info return dict (field names are the dict keys; vm_type is
the "type" key). -/
structure VmInfoPayload where
  vmid : Int
  node : String
  vm_type : String
  name : PValue
  description : PValue
  status : PValue
  uptime_seconds : PValue
  hardware : Hardware
  cpu_usage_percent : ℚ
  memory_usage_bytes : PValue
  memory_total_bytes : PValue
  disk_read_bytes : PValue
  disk_write_bytes : PValue
  network_in_bytes : PValue
  network_out_bytes : PValue
  networks : List NetEntry
  disks : List DiskEntry
  boot_order : PValue
  os_type : PValue
  machine_type : PValue
deriving DecidableEq

/-- Return value of the get_vm_info tool: the info dict or an error dict. -/
inductive VmInfoResult where
  | errorDict (msg : String)
  | payload (p : VmInfoPayload)
deriving DecidableEq

/-- The get_vm_info tool body.  allVms and allCts are the results of
get_all_vms() and get_all_containers() (consulted only when node is not
given); the four fetch arguments give, per resolved node name, the
results of the config and status calls. -/
def get_vm_info (vmid : Int) (node : Option String)
    (allVms allCts : Except PyError (List Record))
    (vmConfig vmStatus ctConfig ctStatus : String → Except PyError Record) :
    Except PyError VmInfoResult :=
  match resolveNodeBoth vmid node allVms allCts with
  | .error e => .error e
  | .ok none => .ok (.errorDict ("VM " ++ toString vmid ++ " not found on any node"))
  | .ok (some n) =>
    match tryQemuThenLxc (vmConfig n) (vmStatus n) (ctConfig n) (ctStatus n) with
    | .error msg => .ok (.errorDict msg)
    | .ok cst =>
      let config := cst.1
      let status := cst.2.1
      .ok (.payload
        { vmid := vmid
          node := n
          vm_type := cst.2.2
          name := Record.getD config ("name")
            (Record.getD status ("name") (.str ("VM-" ++ toString vmid)))
          description := Record.getD config ("description") (.str (""))
          status := Record.getD status ("status") .null
          uptime_seconds := Record.getD status ("uptime") (.num 0)
          hardware :=
            { cpus := Record.getD config ("cores")
                (Record.getD config ("cpulimit") (.num 1))
              sockets := Record.getD config ("sockets") (.num 1)
              memory_mb := Record.getD config ("memory") (.num 0)
              balloon := Record.getD config ("balloon") .null }
          cpu_usage_percent :=
            round2 ((Record.getD status ("cpu") (.num 0)).asNum * 100)
          memory_usage_bytes := Record.getD status ("mem") (.num 0)
          memory_total_bytes := Record.getD status ("maxmem") (.num 0)
          disk_read_bytes := Record.getD status ("diskread") (.num 0)
          disk_write_bytes := Record.getD status ("diskwrite") (.num 0)
          network_in_bytes := Record.getD status ("netin") (.num 0)
          network_out_bytes := Record.getD status ("netout") (.num 0)
          networks := parseNetworks config
          disks := parseDisks config
          boot_order := Record.getD config ("boot") (.str (""))
          os_type := Record.getD config ("ostype") (.str (""))
          machine_type := Record.getD config ("machine") (.str ("")) })

/-- The get_vm_status return dict. -/
structure VmStatusPayload where
  vmid : Int
  node : String
  vm_type : String
  name : PValue
  status : PValue
  uptime_seconds : PValue
  cpu_usage_percent : ℚ
  memory_used_bytes : PValue
  memory_total_bytes : PValue
  memory_usage_percent : ℚ
  disk_read_bytes : PValue
  disk_write_bytes : PValue
  network_in_bytes : PValue
  network_out_bytes : PValue
  pid : PValue
  qmpstatus : PValue
deriving DecidableEq

/-- Return value of the get_vm_status tool. -/
inductive VmStatusResult where
  | errorDict (msg : String)
  | payload (p : VmStatusPayload)
deriving DecidableEq

/-- Normalization of one status record into the get_vm_status return dict. -/
def mkVmStatusPayload (vmid : Int) (n vm_type : String) (st : Record) :
    VmStatusPayload :=
  { vmid := vmid
    node := n
    vm_type := vm_type
    name := Record.getD st ("name") (.str ("VM-" ++ toString vmid))
    status := Record.getD st ("status") .null
    uptime_seconds := Record.getD st ("uptime") (.num 0)
    cpu_usage_percent := round2 ((Record.getD st ("cpu") (.num 0)).asNum * 100)
    memory_used_bytes := Record.getD st ("mem") (.num 0)
    memory_total_bytes := Record.getD st ("maxmem") (.num 0)
    memory_usage_percent :=
      round2 ((Record.getD st ("mem") (.num 0)).asNum
        / pyMax ((Record.getD st ("maxmem") (.num 1)).asNum) 1 * 100)
    disk_read_bytes := Record.getD st ("diskread") (.num 0)
    disk_write_bytes := Record.getD st ("diskwrite") (.num 0)
    network_in_bytes := Record.getD st ("netin") (.num 0)
    network_out_bytes := Record.getD st ("netout") (.num 0)
    pid := Record.getD st ("pid") .null
    qmpstatus := Record.getD st ("qmpstatus") .null }

/-- The get_vm_status tool body: resolve the node over VMs and containers,
then try the QEMU status fetch and fall back to the LXC status fetch. -/
def get_vm_status_tool (vmid : Int) (node : Option String)
    (allVms allCts : Except PyError (List Record))
    (vmStatus ctStatus : String → Except PyError Record) :
    Except PyError VmStatusResult :=
  match resolveNodeBoth vmid node allVms allCts with
  | .error e => .error e
  | .ok none => .ok (.errorDict ("VM " ++ toString vmid ++ " not found"))
  | .ok (some n) =>
    match vmStatus n with
    | .ok st => .ok (.payload (mkVmStatusPayload vmid n ("qemu") st))
    | .error _ =>
      match ctStatus n with
      | .ok st => .ok (.payload (mkVmStatusPayload vmid n ("lxc") st))
      | .error e => .ok (.errorDict ("Failed to get status: " ++ e.str))

/-- The valid timeframe tuple of get_vm_metrics. -/
def validTimeframes : List String :=
  [("hour"), ("day"), ("week"), ("month"), ("year")]

/-- One entry of the "data_points" list of get_vm_metrics. -/
structure DataPoint where
  timestamp : PValue
  cpu_percent : ℚ
  memory_bytes : PValue
  memory_max_bytes : PValue
  disk_read_bytes : PValue
  disk_write_bytes : PValue
  network_in_bytes : PValue
  network_out_bytes : PValue
deriving DecidableEq

/-- Normalization of one RRD record into a data point;
cpu uses (point.get("cpu", 0) or 0) * 100. -/
def mkDataPoint (p : Record) : DataPoint :=
  { timestamp := Record.getD p ("time") .null
    cpu_percent :=
      round2 ((pyOr (Record.getD p ("cpu") (.num 0)) (.num 0)).asNum * 100)
    memory_bytes := Record.getD p ("mem") (.num 0)
    memory_max_bytes := Record.getD p ("maxmem") (.num 0)
    disk_read_bytes := Record.getD p ("diskread") (.num 0)
    disk_write_bytes := Record.getD p ("diskwrite") (.num 0)
    network_in_bytes := Record.getD p ("netin") (.num 0)
    network_out_bytes := Record.getD p ("netout") (.num 0) }

/-- Return value of the get_vm_metrics tool: an error dict, the
"No metrics data available" dict, or the data dict (whose
data_points_count field is the length of the list). -/
inductive MetricsResult where
  | errorDict (msg : String)
  | noData (vmid : Int) (node : String) (timeframe : String)
  | payload (vmid : Int) (node : String) (timeframe : String)
      (points : List DataPoint)
deriving DecidableEq

/-- The get_vm_metrics tool body.  The timeframe is validated before any
upstream call; the node is resolved over VMs only; rrdFetch gives, per
resolved node, the result of get_vm_rrddata. -/
def get_vm_metrics (vmid : Int) (node : Option String) (timeframe : String)
    (allVms : Except PyError (List Record))
    (rrdFetch : String → Except PyError (Option (List Record))) :
    Except PyError MetricsResult :=
  if !(validTimeframes.contains timeframe) then
    .ok (.errorDict ("Invalid timeframe: " ++ timeframe
      ++ ". Use hour/day/week/month/year"))
  else
    match resolveNodeVms vmid node allVms with
    | .error e => .error e
    | .ok none => .ok (.errorDict ("VM " ++ toString vmid ++ " not found"))
    | .ok (some n) =>
      match rrdFetch n with
      | .error e => .ok (.errorDict ("Failed to get metrics: " ++ e.str))
      | .ok rrd =>
        match rrd.getD [] with
        | [] => .ok (.noData vmid n timeframe)
        | points => .ok (.payload vmid n timeframe (points.map mkDataPoint))

/-- One entry of the snapshot list returned by list_vm_snapshots. -/
structure SnapEntry where
  name : PValue
  description : PValue
  snaptime : PValue
  vmstate : PValue
  parent : PValue
deriving DecidableEq

/-- Return value of the list_vm_snapshots tool: a one-element list holding
an error dict, or the snapshot list. -/
inductive SnapshotsResult where
  | errorList (msg : String)
  | snapshots (l : List SnapEntry)
deriving DecidableEq

/-- The list_vm_snapshots tool body: resolve the node over VMs only, fetch
the snapshots, drop the "current" pseudo-snapshot and normalize the rest
in upstream order. -/
def list_vm_snapshots (vmid : Int) (node : Option String)
    (allVms : Except PyError (List Record))
    (snapFetch : String → Except PyError (Option (List Record))) :
    Except PyError SnapshotsResult :=
  match resolveNodeVms vmid node allVms with
  | .error e => .error e
  | .ok none => .ok (.errorList ("VM " ++ toString vmid ++ " not found"))
  | .ok (some n) =>
    match snapFetch n with
    | .error e => .ok (.errorList ("Failed to get snapshots: " ++ e.str))
    | .ok snaps =>
      .ok (.snapshots
        (((snaps.getD []).filter (fun s =>
            !(decide (Record.getD s ("name") .null = PValue.str ("current"))))).map
          (fun s =>
            { name := Record.getD s ("name") .null
              description := Record.getD s ("description") (.str (""))
              snaptime := Record.getD s ("snaptime") .null
              vmstate := Record.getD s ("vmstate") (.bool false)
              parent := Record.getD s ("parent") .null })))

/-- Normalization of one guest record into the list_vms output shape; the
keys of the returned dict are the field names. -/
def normalizeGuest (g : Record) : Record :=
  [(("vmid"), Record.getD g ("vmid") .null),
   (("name"), Record.getD g ("name")
     (.str ("VM-" ++ (Record.getD g ("vmid") .null).repr))),
   (("status"), Record.getD g ("status") .null),
   (("node"), Record.getD g ("node") .null),
   (("type"), Record.getD g ("type") .null),
   (("cpus"), Record.getD g ("cpus") (Record.getD g ("maxcpu") (.num 0))),
   (("memory_bytes"), Record.getD g ("maxmem") (.num 0)),
   (("disk_bytes"), Record.getD g ("maxdisk") (.num 0)),
   (("uptime_seconds"), Record.getD g ("uptime") (.num 0))]

/-- The list_vms tool body: get_all_vms and get_all_containers (either may
raise, and nothing here catches), tag the VMs with type "qemu",
concatenate, and normalize every guest. -/
def list_vms (nodesResp : Except PyError (Option (List Record)))
    (fetchQemu fetchLxc : String → Except PyError (Option (List Record))) :
    Except PyError (List Record) :=
  match Client.get_all_vms nodesResp fetchQemu with
  | .error e => .error e
  | .ok vms =>
    match Client.get_all_containers nodesResp fetchLxc with
    | .error e => .error e
    | .ok cts =>
      .ok (((vms.map (fun vm => Record.set vm ("type") (.str ("qemu")))) ++ cts).map
        normalizeGuest)

/-- The "cluster" sub-dict of get_cluster_status; none models the empty
dict used when no item of type "cluster" occurs. -/
structure ClusterInfo where
  name : PValue
  nodes_count : PValue
  quorate : Bool
  version : PValue
deriving DecidableEq

/-- One entry of the "nodes" list of get_cluster_status (isLocal is the
"local" key). -/
structure ClusterNodeEntry where
  name : PValue
  id : PValue
  online : Bool
  isLocal : Bool
  ip : PValue
deriving DecidableEq

/-- The parsing loop of get_cluster_status over the cluster/status items:
an item of type "cluster" overwrites the cluster info, an item of type
"node" appends a node entry, anything else is ignored. -/
def parseClusterItems (items : List Record) :
    Option ClusterInfo × List ClusterNodeEntry :=
  items.foldl (fun acc item =>
    if Record.getD item ("type") .null = PValue.str ("cluster") then
      (some
        { name := Record.getD item ("name") .null
          nodes_count := Record.getD item ("nodes") (.num 0)
          quorate := decide (Record.getD item ("quorate") (.num 0) = PValue.num 1)
          version := Record.getD item ("version") .null }, acc.2)
    else if Record.getD item ("type") .null = PValue.str ("node") then
      (acc.1, acc.2 ++
        [{ name := Record.getD item ("name") .null
           id := Record.getD item ("id") .null
           online := decide (Record.getD item ("online") (.num 0) = PValue.num 1)
           isLocal := decide (Record.getD item ("local") (.num 0) = PValue.num 1)
           ip := Record.getD item ("ip") .null }])
    else acc) (none, [])

/-- Sum of n.get("maxmem", 0) over the node details, in loop order. -/
def totalMemOf (nds : List Record) : ℚ :=
  nds.foldl (fun acc n => acc + (Record.getD n ("maxmem") (.num 0)).asNum) 0

/-- Sum of n.get("maxdisk", 0) over the node details. -/
def totalDiskOf (nds : List Record) : ℚ :=
  nds.foldl (fun acc n => acc + (Record.getD n ("maxdisk") (.num 0)).asNum) 0

/-- Sum of n.get("mem", 0) over the node details. -/
def usedMemOf (nds : List Record) : ℚ :=
  nds.foldl (fun acc n => acc + (Record.getD n ("mem") (.num 0)).asNum) 0

/-- Sum of n.get("disk", 0) over the node details. -/
def usedDiskOf (nds : List Record) : ℚ :=
  nds.foldl (fun acc n => acc + (Record.getD n ("disk") (.num 0)).asNum) 0

/-- Sum of n.get("maxcpu", 0) over the node details. -/
def totalCpuOf (nds : List Record) : ℚ :=
  nds.foldl (fun acc n => acc + (Record.getD n ("maxcpu") (.num 0)).asNum) 0

/-- The "totals" sub-dict of get_cluster_status. -/
structure ClusterTotals where
  cpu_cores : ℚ
  memory_total_bytes : ℚ
  memory_used_bytes : ℚ
  memory_usage_percent : ℚ
  disk_total_bytes : ℚ
  disk_used_bytes : ℚ
  disk_usage_percent : ℚ
deriving DecidableEq

/-- The aggregate-stats computation of get_cluster_status, with both
usage percentages dividing by max(total, 1). -/
def computeTotals (nds : List Record) : ClusterTotals :=
  { cpu_cores := totalCpuOf nds
    memory_total_bytes := totalMemOf nds
    memory_used_bytes := usedMemOf nds
    memory_usage_percent := round2 (usedMemOf nds / pyMax (totalMemOf nds) 1 * 100)
    disk_total_bytes := totalDiskOf nds
    disk_used_bytes := usedDiskOf nds
    disk_usage_percent := round2 (usedDiskOf nds / pyMax (totalDiskOf nds) 1 * 100) }

/-- Return value of the get_cluster_status tool. -/
inductive ClusterStatusResult where
  | errorDict (msg : String)
  | payload (cluster : Option ClusterInfo) (nodes : List ClusterNodeEntry)
      (totals : ClusterTotals)
deriving DecidableEq

/-- The get_cluster_status tool body.  Only the first upstream call (the
cluster status listing) is wrapped in try/except; the get_nodes call for
the aggregate stats is unguarded, so its failure propagates out of the
tool, as does iterating a None node list. -/
def get_cluster_status (clusterResp : Except PyError (Option (List Record)))
    (nodesResp : Except PyError (Option (List Record))) :
    Except PyError ClusterStatusResult :=
  match clusterResp with
  | .error e => .ok (.errorDict ("Failed to get cluster status: " ++ e.str))
  | .ok items0 =>
    let parsed := parseClusterItems (items0.getD [])
    match nodesResp with
    | .error e => .error e
    | .ok none => .error (.rawError ("TypeError: NoneType object is not iterable"))
    | .ok (some nds) => .ok (.payload parsed.1 parsed.2 (computeTotals nds))

/-- One entry of the "filesystems" list of get_vm_filesystem_info. -/
structure FsEntry where
  mountpoint : PValue
  filesystem_type : PValue
  device : PValue
  total_bytes : ℚ
  used_bytes : ℚ
  free_bytes : ℚ
  total_gb : ℚ
  used_gb : ℚ
  free_gb : ℚ
  usage_percent : ℚ
deriving DecidableEq

/-- Normalization of one guest-agent filesystem record. -/
def mkFsEntry (fs : Record) : FsEntry :=
  let total := (Record.getD fs ("total-bytes") (.num 0)).asNum
  let used := (Record.getD fs ("used-bytes") (.num 0)).asNum
  { mountpoint := Record.getD fs ("mountpoint") .null
    filesystem_type := Record.getD fs ("type") .null
    device := Record.getD fs ("name") .null
    total_bytes := total
    used_bytes := used
    free_bytes := if total = 0 then 0 else total - used
    total_gb := if total = 0 then 0 else round2 (total / (1024 * 1024 * 1024))
    used_gb := if used = 0 then 0 else round2 (used / (1024 * 1024 * 1024))
    free_gb :=
      if (if total = 0 then (0 : ℚ) else total - used) = 0 then 0
      else round2 ((if total = 0 then (0 : ℚ) else total - used) / (1024 * 1024 * 1024))
    usage_percent := if total = 0 then 0 else round2 (used / total * 100) }

/-- Return value of the get_vm_filesystem_info tool: a plain error dict,
the agent-unavailable dict (which carries the remediation hint string and
the vmid and node keys), the "No filesystem info returned" dict, or the
filesystem data. -/
inductive FsInfoResult where
  | errorDict (msg : String)
  | agentUnavailable (vmid : Int) (node : String)
  | noData (vmid : Int) (node : String)
  | filesystems (vmid : Int) (node : String) (fss : List FsEntry)
deriving DecidableEq

/-- The except-branch classification of get_vm_filesystem_info: the
agent-unavailable dict is returned when str(e) contains "500" or when
str(e).lower() contains "QEMU guest agent"; otherwise a generic error
dict.  The second test compares a needle containing upper-case letters
against a lower-cased string, so it can never succeed. -/
def classifyFsError (vmid : Int) (n : String) (e : PyError) : FsInfoResult :=
  if pyIn ("500") e.str || pyIn ("QEMU guest agent") (strLower e.str) then
    .agentUnavailable vmid n
  else
    .errorDict ("Failed to get filesystem info: " ++ e.str)

/-- The get_vm_filesystem_info tool body: resolve the node over VMs only,
then call proxmox.get_vm_agent_fsinfo — an attribute ProxmoxClient does
not define, so the call always lands in the except branch. -/
def get_vm_filesystem_info (vmid : Int) (node : Option String)
    (allVms : Except PyError (List Record)) :
    Except PyError FsInfoResult :=
  match resolveNodeVms vmid node allVms with
  | .error e => .error e
  | .ok none => .ok (.errorDict ("VM " ++ toString vmid ++ " not found"))
  | .ok (some n) =>
    match Client.get_vm_agent_fsinfo_result with
    | .error e => .ok (classifyFsError vmid n e)
    | .ok fsinfo =>
      match fsinfo.getD [] with
      | [] => .ok (.noData vmid n)
      | fss => .ok (.filesystems vmid n (fss.map mkFsEntry))

end Tools

/-- The combined disk predicate of get_vm_info, as one boolean: the key has a
disk prefix, the value is truthy, and the value is a string that contains ":"
or contains "volume" after lowercasing. -/
def diskKeyTest (kv : String × PValue) : Bool :=
  (Tools.diskPrefixes.any (fun p => strStartsWith kv.1 p) && kv.2.truthy) &&
    (match kv.2 with
     | .str s => pyIn (":") s || pyIn ("volume") (strLower s)
     | _ => false)

/-
Helper lemmas shared by the claim theorems below.
-/

/-- Helper: evaluation rule for round2 at a known floor value. -/
theorem round2_int (q : ℚ) (n : ℤ) (h1 : (n : ℚ) ≤ q * 100 + 1 / 2)
    (h2 : q * 100 + 1 / 2 < (n : ℚ) + 1) : round2 q = (n : ℚ) / 100 := by
  unfold round2
  rw [Int.floor_eq_iff.mpr ⟨h1, by exact_mod_cast h2⟩]

/-- Helper: a nonempty string is truthy. -/
theorem optTruthy_some_of_ne {s : String} (h : s ≠ "") :
    Client.optTruthy (some s) = true := by
  show (!s.isEmpty) = true
  cases hs : s.isEmpty
  · rfl
  · exact absurd ((String.isEmpty_iff s).mp hs) h

/-- Helper: a fold that appends g x whenever p x holds collects exactly the
map of g over the filtered list. -/
theorem foldl_guard_append {α β : Type} (p : α → Bool) (g : α → β) :
    ∀ (l : List α) (acc : List β),
      l.foldl (fun a x => if p x then a ++ [g x] else a) acc =
        acc ++ (l.filter p).map g := by
  intro l
  induction l with
  | nil => intro acc; simp
  | cons x t ih =>
    intro acc
    cases hp : p x <;> simp [List.filter_cons, hp, ih]

/-- Helper: parseDisks is the guarded fold of diskKeyTest. -/
theorem parseDisks_eq_filter (cfg : Record) :
    Tools.parseDisks cfg =
      (cfg.filter diskKeyTest).map (fun kv => ⟨kv.1, kv.2⟩) := by
  have hstep :
      (fun (acc : List Tools.DiskEntry) (kv : String × PValue) =>
        if Tools.diskPrefixes.any (fun p => strStartsWith kv.1 p) && kv.2.truthy then
          match kv.2 with
          | .str s =>
            if pyIn (":") s || pyIn ("volume") (strLower s) then
              acc ++ [⟨kv.1, kv.2⟩]
            else acc
          | _ => acc
        else acc) =
      (fun acc kv => if diskKeyTest kv then acc ++ [⟨kv.1, kv.2⟩] else acc) := by
    funext acc kv
    rcases kv with ⟨k, v⟩
    cases v with
    | str s =>
      cases h1 : (Tools.diskPrefixes.any (fun p => strStartsWith k p)
          && (PValue.str s).truthy) <;>
        cases h2 : (pyIn (":") s || pyIn ("volume") (strLower s)) <;>
          simp [diskKeyTest, h1, h2]
    | num q => simp [diskKeyTest]
    | bool b => simp [diskKeyTest]
    | null => simp [diskKeyTest]
  unfold Tools.parseDisks
  rw [hstep, foldl_guard_append]
  simp

/-
Claim theorems.
-/

/-- Claim C1 (code_bug evaluation): over the node list [a, b], when node b's
guest fetch fails with the client's declared ProxmoxClientError, get_all_vms
returns exactly the guests of the responding node a, tagged with their owning
node, without raising (first conjunct); the composed list_vms tool likewise
returns the union of node a's VMs and node b's containers, normalized and
tagged with node and type (third conjunct).  But when node b's fetch fails
with the raw httpx.HTTPStatusError that ProxmoxClient._request lets escape
after a failed 401 retry, the per-node except clause (which catches only
ProxmoxClientError) does not fire and the whole aggregation raises instead of
skipping node b (second conjunct). -/
theorem c1_per_node_failure_evaluation :
    Client.get_all_vms
        (.ok (some [[(("node"), PValue.str ("a"))], [(("node"), PValue.str ("b"))]]))
        (fun n => if n = "a" then
            .ok (some [[(("vmid"), PValue.num 100), (("name"), PValue.str ("vm1")),
                        (("status"), PValue.str ("running"))]])
          else .error (.clientError ("API request failed: boom"))) =
      .ok [[(("vmid"), PValue.num 100), (("name"), PValue.str ("vm1")),
            (("status"), PValue.str ("running")), (("node"), PValue.str ("a"))]]
  ∧ Client.get_all_vms
        (.ok (some [[(("node"), PValue.str ("a"))], [(("node"), PValue.str ("b"))]]))
        (fun n => if n = "a" then
            .ok (some [[(("vmid"), PValue.num 100)]])
          else .error (.httpStatusError 401 ("Unauthorized"))) =
      .error (.httpStatusError 401 ("Unauthorized"))
  ∧ Tools.list_vms
        (.ok (some [[(("node"), PValue.str ("a"))], [(("node"), PValue.str ("b"))]]))
        (fun n => if n = "a" then
            .ok (some [[(("vmid"), PValue.num 100), (("name"), PValue.str ("vm1")),
                        (("status"), PValue.str ("running"))]])
          else .error (.clientError ("API request failed: boom")))
        (fun n => if n = "b" then
            .ok (some [[(("vmid"), PValue.num 201)]])
          else .error (.clientError ("API request failed: boom"))) =
      .ok [[(("vmid"), PValue.num 100), (("name"), PValue.str ("vm1")),
            (("status"), PValue.str ("running")), (("node"), PValue.str ("a")),
            (("type"), PValue.str ("qemu")), (("cpus"), PValue.num 0),
            (("memory_bytes"), PValue.num 0), (("disk_bytes"), PValue.num 0),
            (("uptime_seconds"), PValue.num 0)],
           [(("vmid"), PValue.num 201), (("name"), PValue.str ("VM-201")),
            (("status"), PValue.null), (("node"), PValue.str ("b")),
            (("type"), PValue.str ("lxc")), (("cpus"), PValue.num 0),
            (("memory_bytes"), PValue.num 0), (("disk_bytes"), PValue.num 0),
            (("uptime_seconds"), PValue.num 0)]] := by
  exact ⟨by decide, by decide, by decide⟩

/-- Claim C2 (code_bug evaluation): a single upstream 401 triggers exactly one
re-authentication and one retry of the request (first conjunct: the retry
succeeds and its payload is returned; trace is 2 requests, 1 re-auth).  But
when the retried request also returns 401, the failure propagates as the raw
httpx.HTTPStatusError of the retry — not as a ProxmoxClientError — because the
exception is raised inside the except handler of the same try statement
(second and third conjuncts). -/
theorem c2_unauthorized_retry_evaluation :
    Client.requestModel (.resp ⟨401, ("Unauthorized"), none⟩)
        (.resp ⟨200, ("OK"), some (.str ("payload"))⟩) (.ok ()) =
      ⟨2, 1, .ok (some (.str ("payload")))⟩
  ∧ Client.requestModel (.resp ⟨401, ("Unauthorized"), none⟩)
        (.resp ⟨401, ("Unauthorized"), none⟩) (.ok ()) =
      ⟨2, 1, .error (.httpStatusError 401 ("Unauthorized"))⟩
  ∧ (PyError.httpStatusError 401 ("Unauthorized")).isClientError = false := by
  exact ⟨by decide, by decide, rfl⟩

/-- Claim C3 counterexample: with an unknown guest type on a resolved node,
when the virtual-machine path fails with message "vm path failed" and the
container path fails with message "ct path failed", the error value returned
by get_vm_info wraps the container-path failure, not the original VM-path
failure; the two wrapped messages are distinct strings. -/
theorem c3_counterexample :
    Tools.get_vm_info 100 (some ("pve1")) (.ok []) (.ok [])
        (fun _ => .error (.clientError ("vm path failed")))
        (fun _ => .error (.clientError ("vm path failed")))
        (fun _ => .error (.clientError ("ct path failed")))
        (fun _ => .error (.clientError ("ct path failed"))) =
      .ok (.errorDict ("Failed to get VM/container info: ct path failed"))
  ∧ ((("Failed to get VM/container info: ct path failed") : String) ==
      ("Failed to get VM/container info: vm path failed")) = false := by
  exact ⟨by decide, by decide⟩

/-- Claim C3 as amended: whenever the VM path fails (its config fetch, or its
status fetch after a successful config fetch) and the container path also
fails, the error surfaced by the type-resolution block of get_vm_info wraps
the container-path failure — the container config error if that fetch failed,
else the container status error; the VM-path failure is discarded. -/
theorem c3_amended_surfaces_container_error :
    (∀ (evc ecc : PyError) (vmStatus ctStatus : Except PyError Record),
      Tools.tryQemuThenLxc (.error evc) vmStatus (.error ecc) ctStatus =
        .error ("Failed to get VM/container info: " ++ ecc.str))
  ∧ (∀ (evc ecs : PyError) (vmStatus : Except PyError Record) (c : Record),
      Tools.tryQemuThenLxc (.error evc) vmStatus (.ok c) (.error ecs) =
        .error ("Failed to get VM/container info: " ++ ecs.str))
  ∧ (∀ (evs ecc : PyError) (c0 : Record) (ctStatus : Except PyError Record),
      Tools.tryQemuThenLxc (.ok c0) (.error evs) (.error ecc) ctStatus =
        .error ("Failed to get VM/container info: " ++ ecc.str))
  ∧ (∀ (evs ecs : PyError) (c0 c : Record),
      Tools.tryQemuThenLxc (.ok c0) (.error evs) (.ok c) (.error ecs) =
        .error ("Failed to get VM/container info: " ++ ecs.str)) := by
  refine ⟨?_, ?_, ?_, ?_⟩
  · intro evc ecc vmStatus ctStatus
    cases vmStatus <;> cases ctStatus <;> rfl
  · intro evc ecs vmStatus c
    cases vmStatus <;> rfl
  · intro evs ecc c0 ctStatus
    cases ctStatus <;> rfl
  · intro evs ecs c0 c
    rfl

/-- Claim C4 counterexample: with no VMs and one container with vmid 100 on
node pve1, the claimed VMs-then-containers scan finds the node (second
conjunct), yet get_vm_metrics with node omitted reports not-found (first
conjunct): the metrics, snapshot and filesystem tools scan VMs only. -/
theorem c4_counterexample :
    Tools.get_vm_metrics 100 none ("hour") (.ok []) (fun _ => .ok (some [])) =
      .ok (.errorDict ("VM 100 not found"))
  ∧ Tools.scanNode
      (([] : List Record) ++
        [[(("vmid"), PValue.num 100), (("node"), PValue.str ("pve1"))]]) 100 =
      some (.str ("pve1")) := by
  exact ⟨by decide, by decide⟩

/-- Claim C4 as amended: with node omitted, get_vm_info and get_vm_status
locate the guest by scanning the VM list then the container list (first and
second conjuncts), while get_vm_metrics, list_vm_snapshots and
get_vm_filesystem_info scan the VM list only (third to fifth conjuncts); in
every case the scan stops at the first record whose vmid matches (sixth and
seventh conjuncts) and a failed scan yields the not-found error dict, whose
message differs from every transport-failure message (eighth conjunct). -/
theorem c4_amended_scan_policy :
    (∀ (vmid : Int) (vms cts : List Record)
        (f1 f2 f3 f4 : String → Except PyError Record),
      Tools.get_vm_info vmid none (.ok vms) (.ok cts) f1 f2 f3 f4 =
        (match Tools.scanNode (vms ++ cts) vmid with
         | none => .ok (.errorDict ("VM " ++ toString vmid ++ " not found on any node"))
         | some v => Tools.get_vm_info vmid (some v.repr) (.ok vms) (.ok cts) f1 f2 f3 f4))
  ∧ (∀ (vmid : Int) (vms cts : List Record)
        (f g : String → Except PyError Record),
      Tools.get_vm_status_tool vmid none (.ok vms) (.ok cts) f g =
        (match Tools.scanNode (vms ++ cts) vmid with
         | none => .ok (.errorDict ("VM " ++ toString vmid ++ " not found"))
         | some v => Tools.get_vm_status_tool vmid (some v.repr) (.ok vms) (.ok cts) f g))
  ∧ (∀ (vmid : Int) (vms : List Record)
        (f : String → Except PyError (Option (List Record))),
      Tools.get_vm_metrics vmid none ("hour") (.ok vms) f =
        (match Tools.scanNode vms vmid with
         | none => .ok (.errorDict ("VM " ++ toString vmid ++ " not found"))
         | some v => Tools.get_vm_metrics vmid (some v.repr) ("hour") (.ok vms) f))
  ∧ (∀ (vmid : Int) (vms : List Record)
        (f : String → Except PyError (Option (List Record))),
      Tools.list_vm_snapshots vmid none (.ok vms) f =
        (match Tools.scanNode vms vmid with
         | none => .ok (.errorList ("VM " ++ toString vmid ++ " not found"))
         | some v => Tools.list_vm_snapshots vmid (some v.repr) (.ok vms) f))
  ∧ (∀ (vmid : Int) (vms : List Record),
      Tools.get_vm_filesystem_info vmid none (.ok vms) =
        (match Tools.scanNode vms vmid with
         | none => .ok (.errorDict ("VM " ++ toString vmid ++ " not found"))
         | some v => Tools.get_vm_filesystem_info vmid (some v.repr) (.ok vms)))
  ∧ (∀ (g : Record) (rest : List Record) (vmid : Int),
      decide (Record.getD g ("vmid") .null = PValue.num ((vmid : ℚ))) = true →
      Tools.scanNode (g :: rest) vmid =
        (match Record.getD g ("node") .null with
         | .null => none
         | v => some v))
  ∧ (∀ (g : Record) (rest : List Record) (vmid : Int),
      decide (Record.getD g ("vmid") .null = PValue.num ((vmid : ℚ))) = false →
      Tools.scanNode (g :: rest) vmid = Tools.scanNode rest vmid)
  ∧ (∀ (a b : String), (("VM " ++ a) == ("Failed to get metrics: " ++ b)) = false) := by
  refine ⟨?_, ?_, ?_, ?_, ?_, ?_, ?_, ?_⟩
  · intro vmid vms cts f1 f2 f3 f4
    cases h : Tools.scanNode (vms ++ cts) vmid <;>
      simp [Tools.get_vm_info, Tools.resolveNodeBoth, h]
  · intro vmid vms cts f g
    cases h : Tools.scanNode (vms ++ cts) vmid <;>
      simp [Tools.get_vm_status_tool, Tools.resolveNodeBoth, h]
  · intro vmid vms f
    cases h : Tools.scanNode vms vmid <;>
      simp [Tools.get_vm_metrics, Tools.resolveNodeVms, h, Tools.validTimeframes]
  · intro vmid vms f
    cases h : Tools.scanNode vms vmid <;>
      simp [Tools.list_vm_snapshots, Tools.resolveNodeVms, h]
  · intro vmid vms
    cases h : Tools.scanNode vms vmid <;>
      simp [Tools.get_vm_filesystem_info, Tools.resolveNodeVms, h]
  · intro g rest vmid h
    simp [Tools.scanNode, List.find?, h]
  · intro g rest vmid h
    simp [Tools.scanNode, List.find?, h]
  · intro a b
    rw [beq_eq_false_iff_ne]
    intro h
    have h2 := congrArg String.data h
    rw [String.data_append, String.data_append] at h2
    simp at h2

/-- Witness for c4_amended_scan_policy: the scan skips a non-matching record,
stops at the first matching one and takes its node, and the not-found message
differs from a transport-failure message at a concrete input. -/
theorem c4_amended_scan_policy_witness :
    Tools.scanNode
        ([[(("vmid"), PValue.num 999)],
          [(("vmid"), PValue.num 100), (("node"), PValue.str ("pve1"))]]) 100 =
      some (.str ("pve1"))
  ∧ ((("VM " ++ "100 not found") : String) ==
      ("Failed to get metrics: " ++ "boom")) = false := by
  constructor
  · have hskip := c4_amended_scan_policy.2.2.2.2.2.2.1
      ([(("vmid"), PValue.num 999)])
      ([[(("vmid"), PValue.num 100), (("node"), PValue.str ("pve1"))]])
      100 (by decide)
    have hhit := c4_amended_scan_policy.2.2.2.2.2.1
      ([(("vmid"), PValue.num 100), (("node"), PValue.str ("pve1"))])
      ([]) 100 (by decide)
    exact hskip.trans (hhit.trans (by decide))
  · exact c4_amended_scan_policy.2.2.2.2.2.2.2 ("100 not found") ("boom")

/-- Claim C5 counterexample: at a concrete input where the node-listing call
underlying get_all_vms fails with an ordinary ProxmoxClientError, the list_vms
tool propagates the exception across the tool boundary (an Except.error, i.e.
an uncaught Python exception) instead of returning a structured value with an
"error" field. -/
theorem c5_counterexample :
    Tools.list_vms (.error (.clientError ("API request failed: connection refused")))
        (fun _ => .ok (some [])) (fun _ => .ok (some [])) =
      .error (.clientError ("API request failed: connection refused")) := by
  rfl

/-- Claim C5 as amended: failures that a tool wraps in try/except are returned
as structured error values — the cluster-status fetch of get_cluster_status
(second conjunct) and the per-resource fetch of get_vm_metrics (fourth
conjunct) — but a failure of the unguarded node-listing call propagates as an
exception out of list_vms (first conjunct), and so does a failure of the
unguarded aggregate get_nodes call of get_cluster_status (third conjunct). -/
theorem c5_amended_error_boundary :
    (∀ (e : PyError) (f g : String → Except PyError (Option (List Record))),
      Tools.list_vms (.error e) f g = .error e)
  ∧ (∀ (e : PyError) (nodesResp : Except PyError (Option (List Record))),
      Tools.get_cluster_status (.error e) nodesResp =
        .ok (.errorDict ("Failed to get cluster status: " ++ e.str)))
  ∧ (∀ (e : PyError) (items : Option (List Record)),
      Tools.get_cluster_status (.ok items) (.error e) = .error e)
  ∧ (∀ (e : PyError) (vmid : Int) (n : String)
        (allVms : Except PyError (List Record)),
      Tools.get_vm_metrics vmid (some n) ("hour") allVms (fun _ => .error e) =
        .ok (.errorDict ("Failed to get metrics: " ++ e.str))) := by
  refine ⟨?_, ?_, ?_, ?_⟩
  · intro e f g
    rfl
  · intro e nodesResp
    rfl
  · intro e items
    rfl
  · intro e vmid n allVms
    rfl

/-- Claim C6 (code_bug evaluation): an error whose message references the QEMU
guest agent in lower case does reference it case-insensitively (second
conjunct), yet classifyFsError returns the generic error dict for it (first
conjunct), because the code lowercases the message and then searches for the
mixed-case needle "QEMU guest agent", which cannot occur in a lowercased
string.  The "500" signature still works (third conjunct). -/
theorem c6_agent_signature_evaluation :
    Tools.classifyFsError 100 ("pve1")
        (.clientError ("API request failed: qemu guest agent is not running")) =
      .errorDict
        ("Failed to get filesystem info: API request failed: qemu guest agent is not running")
  ∧ pyIn ("qemu guest agent")
      (strLower ("API request failed: qemu guest agent is not running")) = true
  ∧ Tools.classifyFsError 100 ("pve1")
        (.clientError ("API request failed: 500 Internal Server Error")) =
      .agentUnavailable 100 ("pve1") := by
  exact ⟨by decide, by decide, by decide⟩

/-- Claim C7: with a static API token configured, the request headers are
exactly the token Authorization header and contain no Cookie header (first
conjunct); without a token, a successful login exchange stores the ticket and
CSRF token, after which the headers carry the PVEAuthCookie cookie and the
CSRFPreventionToken header obtained from that exchange (second conjunct). -/
theorem c7_auth_headers :
    (∀ (st : Client.Settings) (ticket csrf : Option String),
      st.use_api_token = true →
        Client.get_headers st ticket csrf =
          [("Authorization",
            "PVEAPIToken=" ++ Client.optStr st.proxmox_api_token_id ++ "="
              ++ Client.optStr st.proxmox_api_token_secret)]
        ∧ (Client.get_headers st ticket csrf).all
            (fun kv => !(kv.1 == ("Cookie"))) = true)
  ∧ (∀ (st : Client.Settings) (t0 c0 : Option String) (ticket csrf : String),
      st.use_api_token = false →
      Client.optTruthy st.proxmox_username = true →
      Client.optTruthy st.proxmox_password = true →
      ticket ≠ "" → csrf ≠ "" →
        Client.authenticate st t0 c0 (.ok (ticket, csrf)) =
          .ok (some ticket, some csrf)
        ∧ ("Cookie", "PVEAuthCookie=" ++ ticket) ∈
            Client.get_headers st (some ticket) (some csrf)
        ∧ ("CSRFPreventionToken", csrf) ∈
            Client.get_headers st (some ticket) (some csrf)) := by
  constructor
  · intro st ticket csrf h
    constructor
    · simp [Client.get_headers, h]
    · simp [Client.get_headers, h]
  · intro st t0 c0 ticket csrf h hu hp ht hc
    refine ⟨?_, ?_, ?_⟩
    · simp [Client.authenticate, h, hu, hp]
    · simp [Client.get_headers, h, optTruthy_some_of_ne ht, Client.optStr]
    · simp [Client.get_headers, h, optTruthy_some_of_ne ht,
        optTruthy_some_of_ne hc, Client.optStr]

/-- Witness for c7_auth_headers at concrete settings: a token-only
configuration yields exactly the Authorization header, and a
username/password configuration yields the cookie and CSRF headers after a
successful login exchange. -/
theorem c7_auth_headers_witness :
    Client.get_headers
        { proxmox_api_token_id := some ("user@pve!tok"),
          proxmox_api_token_secret := some ("secret") } none none =
      [("Authorization", "PVEAPIToken=user@pve!tok=secret")]
  ∧ ("Cookie", "PVEAuthCookie=t1") ∈
      Client.get_headers
        { proxmox_username := some ("root"), proxmox_password := some ("pw") }
        (some ("t1")) (some ("c1"))
  ∧ ("CSRFPreventionToken", ("c1" : String)) ∈
      Client.get_headers
        { proxmox_username := some ("root"), proxmox_password := some ("pw") }
        (some ("t1")) (some ("c1")) := by
  refine ⟨?_, ?_, ?_⟩
  · exact (c7_auth_headers.1
      { proxmox_api_token_id := some ("user@pve!tok"),
        proxmox_api_token_secret := some ("secret") } none none (by decide)).1
  · exact (c7_auth_headers.2
      { proxmox_username := some ("root"), proxmox_password := some ("pw") }
      none none ("t1") ("c1") (by decide) (by decide) (by decide)
      (by decide) (by decide)).2.1
  · exact (c7_auth_headers.2
      { proxmox_username := some ("root"), proxmox_password := some ("pw") }
      none none ("t1") ("c1") (by decide) (by decide) (by decide)
      (by decide) (by decide)).2.2

/-- Claim C8: on the spec's example config, hardware parsing yields exactly
the net0 network entry and the scsi0 disk entry (first and second conjuncts)
and an empty-valued mp0 yields no disk entry (third conjunct); in general a
network entry ⟨k, v⟩ appears iff (k, v) is a config binding with k starting
with "net" and v truthy (fourth conjunct), and a disk entry appears iff the
binding passes the disk prefix, truthiness and volume-reference tests (fifth
conjunct). -/
theorem c8_hardware_parsing :
    Tools.parseNetworks
        ([(("net0"), PValue.str ("virtio=AA:BB")),
          (("scsi0"), PValue.str ("local:100/vm-100-disk-0.qcow2")),
          (("cores"), PValue.num 2)]) =
      [⟨("net0"), PValue.str ("virtio=AA:BB")⟩]
  ∧ Tools.parseDisks
        ([(("net0"), PValue.str ("virtio=AA:BB")),
          (("scsi0"), PValue.str ("local:100/vm-100-disk-0.qcow2")),
          (("cores"), PValue.num 2)]) =
      [⟨("scsi0"), PValue.str ("local:100/vm-100-disk-0.qcow2")⟩]
  ∧ Tools.parseDisks ([(("mp0"), PValue.str (""))]) = []
  ∧ (∀ (cfg : Record) (k : String) (v : PValue),
      Tools.NetEntry.mk k v ∈ Tools.parseNetworks cfg ↔
        ((k, v) ∈ cfg ∧ (strStartsWith k ("net") && v.truthy) = true))
  ∧ (∀ (cfg : Record) (k : String) (v : PValue),
      Tools.DiskEntry.mk k v ∈ Tools.parseDisks cfg ↔
        ((k, v) ∈ cfg ∧ diskKeyTest (k, v) = true)) := by
  refine ⟨by decide, by decide, by decide, ?_, ?_⟩
  · intro cfg k v
    rw [show Tools.parseNetworks cfg =
        (cfg.filter (fun kv => strStartsWith kv.1 ("net") && kv.2.truthy)).map
          (fun kv => ⟨kv.1, kv.2⟩) from
      (foldl_guard_append _ _ cfg []).trans (by simp)]
    constructor
    · intro hmem
      obtain ⟨⟨k2, v2⟩, hin, heq⟩ := List.mem_map.mp hmem
      obtain ⟨hin2, hp⟩ := List.mem_filter.mp hin
      cases heq
      exact ⟨hin2, hp⟩
    · rintro ⟨hin, hp⟩
      exact List.mem_map.mpr ⟨(k, v), List.mem_filter.mpr ⟨hin, hp⟩, rfl⟩
  · intro cfg k v
    rw [parseDisks_eq_filter]
    constructor
    · intro hmem
      obtain ⟨⟨k2, v2⟩, hin, heq⟩ := List.mem_map.mp hmem
      obtain ⟨hin2, hp⟩ := List.mem_filter.mp hin
      cases heq
      exact ⟨hin2, hp⟩
    · rintro ⟨hin, hp⟩
      exact List.mem_map.mpr ⟨(k, v), List.mem_filter.mpr ⟨hin, hp⟩, rfl⟩

/-- Witness for c8_hardware_parsing: the membership characterizations applied
at the concrete example bindings. -/
theorem c8_hardware_parsing_witness :
    Tools.NetEntry.mk ("net0") (PValue.str ("virtio=AA:BB")) ∈
      Tools.parseNetworks ([(("net0"), PValue.str ("virtio=AA:BB"))])
  ∧ Tools.DiskEntry.mk ("scsi0") (PValue.str ("local:1")) ∈
      Tools.parseDisks ([(("scsi0"), PValue.str ("local:1"))]) := by
  constructor
  · exact (c8_hardware_parsing.2.2.2.1
      ([(("net0"), PValue.str ("virtio=AA:BB"))]) ("net0")
      (PValue.str ("virtio=AA:BB"))).mpr (by decide)
  · exact (c8_hardware_parsing.2.2.2.2
      ([(("scsi0"), PValue.str ("local:1"))]) ("scsi0")
      (PValue.str ("local:1"))).mpr (by decide)

/-- Claim C9: on the spec's example nodes the cluster totals sum memory to
100 with 50 used and yield memory_usage_percent = 50 with every disk and cpu
total zero (first conjunct); on an empty node list every total and percent is
0, the clamped denominator making the division safe (second conjunct); in
general both percentage denominators are positive (third conjunct) and the
memory percentage is computed from the summed fields with the denominator
clamped to at least 1 (fourth conjunct). -/
theorem c9_cluster_totals :
    Tools.computeTotals
        ([[(("maxmem"), PValue.num 100), (("mem"), PValue.num 50)],
          [(("maxmem"), PValue.num 0), (("mem"), PValue.num 0)]]) =
      ⟨0, 100, 50, 50, 0, 0, 0⟩
  ∧ Tools.computeTotals ([]) = ⟨0, 0, 0, 0, 0, 0, 0⟩
  ∧ (∀ (nds : List Record),
      0 < pyMax (Tools.totalMemOf nds) 1 ∧ 0 < pyMax (Tools.totalDiskOf nds) 1)
  ∧ (∀ (nds : List Record),
      (Tools.computeTotals nds).memory_usage_percent =
        round2 (Tools.usedMemOf nds / pyMax (Tools.totalMemOf nds) 1 * 100)) := by
  have h50 : round2 ((50 : ℚ)) = 50 := by
    have h := round2_int (50 : ℚ) 5000 (by norm_num) (by norm_num)
    rw [h]
    norm_num
  have h0 : round2 ((0 : ℚ)) = 0 := by
    have h := round2_int (0 : ℚ) 0 (by norm_num) (by norm_num)
    rw [h]
    norm_num
  refine ⟨?_, ?_, ?_, ?_⟩
  · have hm : Tools.totalMemOf
        ([[(("maxmem"), PValue.num 100), (("mem"), PValue.num 50)],
          [(("maxmem"), PValue.num 0), (("mem"), PValue.num 0)]]) = 100 := by
      simp [Tools.totalMemOf, Record.getD, Record.get?, List.find?, PValue.asNum]
    have hu : Tools.usedMemOf
        ([[(("maxmem"), PValue.num 100), (("mem"), PValue.num 50)],
          [(("maxmem"), PValue.num 0), (("mem"), PValue.num 0)]]) = 50 := by
      simp [Tools.usedMemOf, Record.getD, Record.get?, List.find?, PValue.asNum]
    have hd : Tools.totalDiskOf
        ([[(("maxmem"), PValue.num 100), (("mem"), PValue.num 50)],
          [(("maxmem"), PValue.num 0), (("mem"), PValue.num 0)]]) = 0 := by
      simp [Tools.totalDiskOf, Record.getD, Record.get?, List.find?, PValue.asNum]
    have hud : Tools.usedDiskOf
        ([[(("maxmem"), PValue.num 100), (("mem"), PValue.num 50)],
          [(("maxmem"), PValue.num 0), (("mem"), PValue.num 0)]]) = 0 := by
      simp [Tools.usedDiskOf, Record.getD, Record.get?, List.find?, PValue.asNum]
    have hc : Tools.totalCpuOf
        ([[(("maxmem"), PValue.num 100), (("mem"), PValue.num 50)],
          [(("maxmem"), PValue.num 0), (("mem"), PValue.num 0)]]) = 0 := by
      simp [Tools.totalCpuOf, Record.getD, Record.get?, List.find?, PValue.asNum]
    simp [Tools.computeTotals, hm, hu, hd, hud, hc, pyMax]
    norm_num [h50, h0]
  · simp [Tools.computeTotals, Tools.totalMemOf, Tools.usedMemOf,
      Tools.totalDiskOf, Tools.usedDiskOf, Tools.totalCpuOf, pyMax]
    norm_num [h0]
  · intro nds
    constructor <;>
      · unfold pyMax
        split
        · norm_num
        · rename_i hlt
          push_neg at hlt
          linarith
  · intro nds
    rfl

/-- Claim C10: ProxmoxClient defines no get_vm_agent_fsinfo attribute (first
conjunct), so for every vmid whose node is resolved — given explicitly
(second conjunct) or found by the scan (third conjunct) — the
get_vm_filesystem_info tool takes its except branch and returns an error
dict; it can never return filesystem data. -/
theorem c10_fsinfo_always_error :
    Client.proxmoxClientAttrs.contains ("get_vm_agent_fsinfo") = false
  ∧ (∀ (vmid : Int) (n : String) (allVms : Except PyError (List Record)),
      Tools.get_vm_filesystem_info vmid (some n) allVms =
        .ok (.errorDict
          ("Failed to get filesystem info: \x27ProxmoxClient\x27 object has no attribute \x27get_vm_agent_fsinfo\x27")))
  ∧ (∀ (vmid : Int) (vms : List Record),
      Tools.get_vm_filesystem_info vmid none (.ok vms) =
        (match Tools.scanNode vms vmid with
         | none => .ok (.errorDict ("VM " ++ toString vmid ++ " not found"))
         | some _ => .ok (.errorDict
            ("Failed to get filesystem info: \x27ProxmoxClient\x27 object has no attribute \x27get_vm_agent_fsinfo\x27")))) := by
  refine ⟨by decide, ?_, ?_⟩
  · intro vmid n allVms
    rfl
  · intro vmid vms
    cases h : Tools.scanNode vms vmid with
    | none => simp [Tools.get_vm_filesystem_info, Tools.resolveNodeVms, h]
    | some _v =>
      simp [Tools.get_vm_filesystem_info, Tools.resolveNodeVms, h]
      rfl

end ProxmoxMCP
